import Mathlib

/-
Verification of the GarageMunky Parameter Monitoring and Session Engine
(vehicle_monitoring_system.py) and of the trouble-code database merge
(dtc_parser.py), as a shallow embedding in Lean 4.

Modelling conventions:
  - Python wall-clock times (time.time, datetime.now) are Int seconds.
  - Python numeric sensor values (ints and floats) are Rat.
  - Python dicts keyed by parameter path, read only by key with a
    default (self.last_poll_time.get(path, 0), self.current_values[path]),
    are total functions from String; dicts whose iteration order matters
    (the DTC source dicts) are insertion-ordered association lists.
  - Python exceptions (KeyError on a missing profile or parameter,
    ValueError from fromisoformat on an empty start_time) are explicit
    result constructors returned next to the state reached when the
    exception is raised, so partial mutation before a raise is visible.
-/

namespace GarageMunky

/-- Status of a sampled parameter, the four statuses the engine uses. -/
inductive Status where
  | unknown
  | normal
  | warning
  | critical
deriving DecidableEq, Repr

/-- ParameterDefinition: one entry of MONITORING_PARAMETERS in
vehicle_monitoring_system.py, with the same fields. -/
structure ParamDef where
  pid : String
  name : String
  unit : String
  min_normal : Option Rat
  max_normal : Option Rat
  warning_threshold : Option Rat
  critical_threshold : Option Rat
  priority : String
  polling_rate : Int
  description : String
deriving DecidableEq, Repr

/-- ENGINE_PARAMETERS category of MONITORING_PARAMETERS. -/
def ENGINE_PARAMETERS : List (String × ParamDef) :=
  [ ("RPM",
     { pid := "010C", name := "Engine RPM", unit := "rpm",
       min_normal := some 600, max_normal := some 6500,
       warning_threshold := some 6000, critical_threshold := some 6500,
       priority := "high", polling_rate := 1,
       description := "Engine revolutions per minute" }),
    ("LOAD",
     { pid := "0104", name := "Engine Load", unit := "%",
       min_normal := some 0, max_normal := some 85,
       warning_threshold := some 85, critical_threshold := some 95,
       priority := "medium", polling_rate := 2,
       description := "Calculated engine load value" }),
    ("COOLANT_TEMP",
     { pid := "0105", name := "Coolant Temperature", unit := "°C",
       min_normal := some 75, max_normal := some 105,
       warning_threshold := some 105, critical_threshold := some 115,
       priority := "high", polling_rate := 5,
       description := "Engine coolant temperature" }),
    ("INTAKE_TEMP",
     { pid := "010F", name := "Intake Air Temperature", unit := "°C",
       min_normal := some (-10), max_normal := some 70,
       warning_threshold := some 70, critical_threshold := some 85,
       priority := "low", polling_rate := 10,
       description := "Intake air temperature" }),
    ("MAF",
     { pid := "0110", name := "MAF Air Flow Rate", unit := "g/s",
       min_normal := some 0, max_normal := some 250,
       warning_threshold := none, critical_threshold := none,
       priority := "low", polling_rate := 5,
       description := "Mass air flow sensor air flow rate" }),
    ("THROTTLE",
     { pid := "0111", name := "Throttle Position", unit := "%",
       min_normal := some 0, max_normal := some 100,
       warning_threshold := none, critical_threshold := none,
       priority := "medium", polling_rate := 2,
       description := "Absolute throttle position" }) ]

/-- VEHICLE_PARAMETERS category of MONITORING_PARAMETERS. -/
def VEHICLE_PARAMETERS : List (String × ParamDef) :=
  [ ("SPEED",
     { pid := "010D", name := "Vehicle Speed", unit := "km/h",
       min_normal := some 0, max_normal := some 200,
       warning_threshold := none, critical_threshold := none,
       priority := "high", polling_rate := 1,
       description := "Vehicle speed" }),
    ("RUNTIME",
     { pid := "011F", name := "Run Time", unit := "seconds",
       min_normal := some 0, max_normal := none,
       warning_threshold := none, critical_threshold := none,
       priority := "low", polling_rate := 60,
       description := "Run time since engine start" }) ]

/-- FUEL_PARAMETERS category of MONITORING_PARAMETERS. -/
def FUEL_PARAMETERS : List (String × ParamDef) :=
  [ ("FUEL_PRESSURE",
     { pid := "010A", name := "Fuel Pressure", unit := "kPa",
       min_normal := some 350, max_normal := some 500,
       warning_threshold := some 300, critical_threshold := some 250,
       priority := "medium", polling_rate := 5,
       description := "Fuel pressure" }),
    ("FUEL_LEVEL",
     { pid := "012F", name := "Fuel Level", unit := "%",
       min_normal := some 10, max_normal := some 100,
       warning_threshold := some 10, critical_threshold := some 5,
       priority := "medium", polling_rate := 30,
       description := "Fuel tank level input" }),
    ("FUEL_RATE",
     { pid := "015E", name := "Fuel Rate", unit := "L/h",
       min_normal := some 0, max_normal := some 30,
       warning_threshold := none, critical_threshold := none,
       priority := "low", polling_rate := 5,
       description := "Engine fuel rate" }) ]

/-- EMISSIONS_PARAMETERS category of MONITORING_PARAMETERS. -/
def EMISSIONS_PARAMETERS : List (String × ParamDef) :=
  [ ("O2_VOLTAGE",
     { pid := "0114", name := "O2 Sensor Voltage", unit := "V",
       min_normal := some 0, max_normal := some (11/10),
       warning_threshold := none, critical_threshold := none,
       priority := "low", polling_rate := 5,
       description := "O2 sensor voltage" }),
    ("CATALYST_TEMP",
     { pid := "013C", name := "Catalyst Temperature", unit := "°C",
       min_normal := some 300, max_normal := some 900,
       warning_threshold := some 900, critical_threshold := some 950,
       priority := "medium", polling_rate := 10,
       description := "Catalyst temperature" }) ]

/-- MONITORING_PARAMETERS: the nested catalog of parameter definitions. -/
def MONITORING_PARAMETERS : List (String × List (String × ParamDef)) :=
  [ ("ENGINE_PARAMETERS", ENGINE_PARAMETERS),
    ("VEHICLE_PARAMETERS", VEHICLE_PARAMETERS),
    ("FUEL_PARAMETERS", FUEL_PARAMETERS),
    ("EMISSIONS_PARAMETERS", EMISSIONS_PARAMETERS) ]

/-- Registry is the type of the parameter catalog a lookup runs against. -/
abbrev Registry := List (String × List (String × ParamDef))

/-- Helper for splitting on a separator character, structural over the
character list so that it evaluates inside the kernel. -/
def splitAux (c : Char) : List Char → List Char → List String
  | [], acc => [String.mk acc.reverse]
  | x :: xs, acc =>
      if x = c then String.mk acc.reverse :: splitAux c xs []
      else splitAux c xs (x :: acc)

/-- Model of the Python str.split with a one-character separator. -/
def splitOnChar (c : Char) (s : String) : List String :=
  splitAux c s.data []

/-- Lookup of a dotted parameter path, mirroring
category, param = param_path.split(.) followed by
MONITORING_PARAMETERS[category][param]; returns none where Python
raises KeyError. -/
def lookupParam (reg : Registry) (path : String) : Option ParamDef :=
  match splitOnChar '.' path with
  | [category, param] =>
      match List.lookup category reg with
      | some cat => List.lookup param cat
      | none => none
  | _ => none

/-- Profile: one entry of MONITORING_PROFILES, with the same fields. -/
structure Profile where
  name : String
  description : String
  parameters : List String
  polling_interval : Int
  alert_threshold : String
deriving DecidableEq, Repr

/-- MONITORING_PROFILES: the profile catalog. -/
def MONITORING_PROFILES : List (String × Profile) :=
  [ ("STANDARD",
     { name := "Standard Monitoring",
       description := "Basic vehicle monitoring for everyday driving",
       parameters :=
         [ "ENGINE_PARAMETERS.RPM",
           "ENGINE_PARAMETERS.COOLANT_TEMP",
           "VEHICLE_PARAMETERS.SPEED",
           "FUEL_PARAMETERS.FUEL_LEVEL" ],
       polling_interval := 5, alert_threshold := "warning" }),
    ("PERFORMANCE",
     { name := "Performance Monitoring",
       description := "Enhanced monitoring for performance driving",
       parameters :=
         [ "ENGINE_PARAMETERS.RPM",
           "ENGINE_PARAMETERS.LOAD",
           "ENGINE_PARAMETERS.COOLANT_TEMP",
           "ENGINE_PARAMETERS.INTAKE_TEMP",
           "ENGINE_PARAMETERS.MAF",
           "ENGINE_PARAMETERS.THROTTLE",
           "VEHICLE_PARAMETERS.SPEED",
           "FUEL_PARAMETERS.FUEL_PRESSURE",
           "FUEL_PARAMETERS.FUEL_RATE",
           "EMISSIONS_PARAMETERS.CATALYST_TEMP" ],
       polling_interval := 1, alert_threshold := "warning" }),
    ("ECONOMY",
     { name := "Economy Monitoring",
       description := "Monitoring focused on fuel efficiency",
       parameters :=
         [ "ENGINE_PARAMETERS.RPM",
           "ENGINE_PARAMETERS.LOAD",
           "ENGINE_PARAMETERS.THROTTLE",
           "VEHICLE_PARAMETERS.SPEED",
           "FUEL_PARAMETERS.FUEL_LEVEL",
           "FUEL_PARAMETERS.FUEL_RATE" ],
       polling_interval := 10, alert_threshold := "warning" }),
    ("DIAGNOSTIC",
     { name := "Diagnostic Monitoring",
       description := "Comprehensive monitoring for diagnosing issues",
       parameters :=
         [ "ENGINE_PARAMETERS.RPM",
           "ENGINE_PARAMETERS.LOAD",
           "ENGINE_PARAMETERS.COOLANT_TEMP",
           "ENGINE_PARAMETERS.INTAKE_TEMP",
           "ENGINE_PARAMETERS.MAF",
           "ENGINE_PARAMETERS.THROTTLE",
           "VEHICLE_PARAMETERS.SPEED",
           "VEHICLE_PARAMETERS.RUNTIME",
           "FUEL_PARAMETERS.FUEL_PRESSURE",
           "FUEL_PARAMETERS.FUEL_LEVEL",
           "FUEL_PARAMETERS.FUEL_RATE",
           "EMISSIONS_PARAMETERS.O2_VOLTAGE",
           "EMISSIONS_PARAMETERS.CATALYST_TEMP" ],
       polling_interval := 2, alert_threshold := "warning" }) ]

/-- Profiles is the type of the profile catalog a lookup runs against. -/
abbrev Profiles := List (String × Profile)

/-- Modelled from the spec: the body of determine_parameter_status is
truncated out of the source file (the call sites at lines 455 and 465
remain), so the helper deciding whether a threshold lies on the low side
of the normal range is taken from spec section 4.3: the direction of a
threshold is inferred from whether it is below minNormal (low side,
crossing means value at or under it) or above maxNormal (high side,
crossing means value at or over it). A threshold equal to a bound is
treated as on that side of the bound. -/
def thresholdIsLow (d : ParamDef) (t : Rat) : Bool :=
  match d.min_normal with
  | some mn => t ≤ mn
  | none => false

/-- Modelled from the spec: crossing test for an optional threshold,
spec section 4.3; a value exactly at the threshold counts as crossed
(spec section 8: a value exactly at criticalThreshold is critical). -/
def hasCrossed (d : ParamDef) (t? : Option Rat) (x : Rat) : Bool :=
  match t? with
  | none => false
  | some t => if thresholdIsLow d t then x ≤ t else t ≤ x

/-- Modelled from the spec: normal-range membership test of spec
section 4.3, with an absent bound treated as open-ended. -/
def inNormalRange (d : ParamDef) (x : Rat) : Bool :=
  (match d.min_normal with
   | some mn => mn ≤ x
   | none => true)
  &&
  (match d.max_normal with
   | some mx => x ≤ mx
   | none => true)

/-- Modelled from the spec: determine_parameter_status, whose body is
truncated out of vehicle_monitoring_system.py; spec section 4.3 gives
the algorithm, absent value to unknown, crossed critical threshold to
critical, else crossed warning threshold to warning, else in-range to
normal, else warning. -/
def determine_parameter_status (d : ParamDef) (v : Option Rat) : Status :=
  match v with
  | none => .unknown
  | some x =>
      if hasCrossed d d.critical_threshold x then .critical
      else if hasCrossed d d.warning_threshold x then .warning
      else if inNormalRange d x then .normal
      else .warning

/-- Vehicle information block of the monitoring document metadata. -/
structure VehicleInfo where
  vin : String
  make : String
  model : String
  year : String
  engine : String
deriving DecidableEq, Repr

/-- CurrentValue: the per-parameter record written by update_parameters
into self.current_values. -/
structure CurrentValue where
  value : Option Rat
  unit : String
  timestamp : Option Int
  status : Status
deriving DecidableEq, Repr

/-- Alert record; the raising code is truncated out of the source, so
the fields follow the Alert of spec section 3: parameter key, status at
raise time, value, timestamp, acknowledged flag. -/
structure Alert where
  param : String
  status : Status
  value : Option Rat
  timestamp : Int
  acknowledged : Bool
deriving DecidableEq, Repr

/-- Per-parameter entry of the current session inside the monitoring
document, as initialized by start_monitoring. -/
structure SessionParam where
  name : String
  unit : String
  values : List (Rat × Int)
  status : Status
deriving DecidableEq, Repr

/-- Session: the current_session block of the monitoring document.
An empty Python start_time string is the none timestamp. -/
structure Session where
  start_time : Option Int
  duration : Int
  parameters : List (String × SessionParam)
  alerts : List Alert
  dtcs : List String
deriving DecidableEq, Repr

/-- Metadata block of the monitoring document. -/
structure Metadata where
  vehicle_info : VehicleInfo
  monitoring_start_time : Option Int
  active_profile : String
  total_alerts : Nat
  total_dtcs : Nat
deriving DecidableEq, Repr

/-- MonitoringDoc: the persisted monitoring_data document. -/
structure MonitoringDoc where
  metadata : Metadata
  current_session : Session
  historical_sessions : List Session
deriving DecidableEq, Repr

/-- MState: the in-memory fields of VehicleMonitor together with the
monitoring document and the last persisted copy of it. Python dicts
read by key with a default (self.last_poll_time.get(path, 0)) or only
written per key are total functions from the path string. -/
structure MState where
  active_profile : String
  monitoring_active : Bool
  current_values : String → Option CurrentValue
  historical_data : String → List (Rat × Int)
  alerts : List Alert
  last_poll_time : String → Int
  doc : MonitoringDoc
  saved : MonitoringDoc

/-- Session placeholder used at initialization and after stop. -/
def emptySession : Session :=
  { start_time := none, duration := 0, parameters := [], alerts := [], dtcs := [] }

/-- Function save_monitoring_data: writes the in-memory document to the
persisted copy. -/
def save_monitoring_data (s : MState) : MState :=
  { s with saved := s.doc }

/-- Document built by initialize_monitoring_data. -/
def initialDoc (profile : String) : MonitoringDoc :=
  { metadata :=
      { vehicle_info := { vin := "", make := "", model := "", year := "", engine := "" },
        monitoring_start_time := none,
        active_profile := profile,
        total_alerts := 0,
        total_dtcs := 0 },
    current_session := emptySession,
    historical_sessions := [] }

/-- State after the constructor ran initialize_monitoring_data, which
ends with a save of the fresh document. -/
def initialize_monitoring_data (profile : String) : MState :=
  { active_profile := profile,
    monitoring_active := false,
    current_values := fun _ => none,
    historical_data := fun _ => [],
    alerts := [],
    last_poll_time := fun _ => 0,
    doc := initialDoc profile,
    saved := initialDoc profile }

/-- Function set_vehicle_info: overwrites the vehicle info block and
saves. -/
def set_vehicle_info (s : MState) (vin make model year engine : String) : MState :=
  save_monitoring_data
    { s with
      doc :=
        { s.doc with
          metadata :=
            { s.doc.metadata with
              vehicle_info :=
                { vin := vin, make := make, model := model, year := year, engine := engine } } } }

/-- Result of start_monitoring: ok and alreadyActive are the True and
False returns; the err constructors are the KeyError raised at the
profile lookup or at a parameter lookup inside the initialization loop. -/
inductive StartResult where
  | ok
  | alreadyActive
  | errUnknownProfile
  | errUnknownParameter
deriving DecidableEq, Repr

/-- Per-parameter initialization step of the start_monitoring loop:
current value unknown, empty history, last poll time zero, session
parameter entry added to the document. -/
def applyInit (s : MState) (path : String) (info : ParamDef) : MState :=
  { s with
    current_values := fun p =>
      if p = path then
        some { value := none, unit := info.unit, timestamp := none, status := .unknown }
      else s.current_values p,
    historical_data := fun p => if p = path then [] else s.historical_data p,
    last_poll_time := fun p => if p = path then 0 else s.last_poll_time p,
    doc :=
      { s.doc with
        current_session :=
          { s.doc.current_session with
            parameters :=
              s.doc.current_session.parameters ++
                [(path, { name := info.name, unit := info.unit, values := [], status := .unknown })] } } }

/-- Initialization loop of start_monitoring over the profile parameter
paths; false reports the KeyError of a failed parameter lookup, with
the state holding the entries initialized before the raise. -/
def initParams (reg : Registry) : MState → List String → MState × Bool
  | s, [] => (s, true)
  | s, path :: rest =>
      match lookupParam reg path with
      | none => (s, false)
      | some info => initParams reg (applyInit s path info) rest

/-- Mutations start_monitoring performs before the profile catalog
lookup, source lines 334 to 353: active profile and monitoring flag
set, metadata updated, fresh current session with the start timestamp,
scheduler maps cleared. -/
def startMutated (s : MState) (profile : String) (now : Int) : MState :=
  { s with
    active_profile := profile,
    monitoring_active := true,
    current_values := fun _ => none,
    historical_data := fun _ => [],
    alerts := [],
    last_poll_time := fun _ => 0,
    doc :=
      { s.doc with
        metadata :=
          { s.doc.metadata with
            active_profile := profile,
            monitoring_start_time := some now },
        current_session :=
          { start_time := some now, duration := 0, parameters := [], alerts := [], dtcs := [] } } }

/-- Function start_monitoring: early False return when already active;
otherwise the state is mutated through startMutated before the profile
catalog lookup, so a KeyError leaves those mutations behind; a
successful run initializes every profile parameter and saves. -/
def start_monitoring (profiles : Profiles) (reg : Registry) (s : MState)
    (profile : String) (now : Int) : MState × StartResult :=
  if s.monitoring_active then (s, .alreadyActive)
  else
    match List.lookup profile profiles with
    | none => (startMutated s profile now, .errUnknownProfile)
    | some prof =>
        match initParams reg (startMutated s profile now) prof.parameters with
        | (s2, true) => (save_monitoring_data s2, .ok)
        | (s2, false) => (s2, .errUnknownParameter)

/-- Result of stop_monitoring: ok and notActive are the True and False
returns; badStartTime is the ValueError fromisoformat raises on an
empty stored start time, reached before any mutation. -/
inductive StopResult where
  | ok
  | notActive
  | badStartTime
deriving DecidableEq, Repr

/-- Function stop_monitoring: early False return when idle; otherwise
the session duration is computed from the stored start time, the closed
session is appended to history, the current session is reset to the
empty placeholder, the flag is cleared and the document saved. -/
def stop_monitoring (s : MState) (now : Int) : MState × StopResult :=
  if s.monitoring_active = false then (s, .notActive)
  else
    match s.doc.current_session.start_time with
    | none => (s, .badStartTime)
    | some st =>
        let closed : Session := { s.doc.current_session with duration := now - st }
        (save_monitoring_data
          { s with
            monitoring_active := false,
            doc :=
              { s.doc with
                current_session := emptySession,
                historical_sessions := s.doc.historical_sessions ++ [closed] } }, .ok)

/-- ValueSource: abstraction over get_parameter_from_obd and the
simulated value generator (both truncated out of the source); none is a
failed acquisition. -/
abbrev ValueSource := String → Int → Option Rat

/-- Modelled from the spec: numeric severity order of spec section 4.4,
normal below warning below critical, with unknown below all. -/
def statusSeverity : Status → Nat
  | .unknown => 0
  | .normal => 1
  | .warning => 2
  | .critical => 3

/-- Modelled from the spec: severity rank of the textual alert
threshold stored on a profile. -/
def thresholdSeverity (t : String) : Nat :=
  if t = "normal" then 1
  else if t = "warning" then 2
  else if t = "critical" then 3
  else 4

/-- Modelled from the spec: an alert is raised iff the sample status is
at least as severe as the profile alert threshold, and unknown never
raises (spec section 4.4); this code is truncated out of the source. -/
def raisesAlert (prof : Profile) (st : Status) : Bool :=
  decide (st ≠ .unknown) && decide (thresholdSeverity prof.alert_threshold ≤ statusSeverity st)

/-- Sampling of one due parameter inside update_parameters: the last
poll time is set to now, the value is acquired and the current value
overwritten with it and its evaluated status (visible source, lines
438 to 456). The tail of the loop body is truncated out of the source;
modelled from the spec: a successful acquisition is appended to the
history and a qualifying sample raises an alert, incrementing the
total-alert counter (spec sections 4.2 and 4.4). -/
def sampleParam (prof : Profile) (source : ValueSource) (s : MState)
    (path : String) (info : ParamDef) (now : Int) : MState :=
  let value := source path now
  let st := determine_parameter_status info value
  let s1 : MState :=
    { s with
      last_poll_time := fun p => if p = path then now else s.last_poll_time p,
      current_values := fun p =>
        if p = path then some { value := value, unit := info.unit, timestamp := some now, status := st }
        else s.current_values p }
  let s2 : MState :=
    match value with
    | some x =>
        { s1 with
          historical_data := fun p =>
            if p = path then s1.historical_data p ++ [(x, now)] else s1.historical_data p }
    | none => s1
  if raisesAlert prof st then
    let a : Alert := { param := path, status := st, value := value, timestamp := now, acknowledged := false }
    { s2 with
      alerts := s2.alerts ++ [a],
      doc :=
        { s2.doc with
          metadata := { s2.doc.metadata with total_alerts := s2.doc.metadata.total_alerts + 1 },
          current_session :=
            { s2.doc.current_session with alerts := s2.doc.current_session.alerts ++ [a] } } }
  else s2

/-- Loop of update_parameters over the profile parameter paths: a
parameter is sampled exactly when now minus its last poll time has
reached its own polling rate; false reports the KeyError of a failed
parameter lookup. -/
def tickLoop (prof : Profile) (reg : Registry) (source : ValueSource) (now : Int) :
    MState → List String → MState × Bool
  | s, [] => (s, true)
  | s, path :: rest =>
      match lookupParam reg path with
      | none => (s, false)
      | some info =>
          if now - s.last_poll_time path ≥ info.polling_rate then
            tickLoop prof reg source now (sampleParam prof source s path info now) rest
          else
            tickLoop prof reg source now s rest

/-- Result of update_parameters: notActive is the early False return;
errLookup is a KeyError on the profile or a parameter lookup. -/
inductive TickResult where
  | ok
  | notActive
  | errLookup
deriving DecidableEq, Repr

/-- Function update_parameters: one scheduler tick at the given time. -/
def update_parameters (profiles : Profiles) (reg : Registry) (source : ValueSource)
    (s : MState) (now : Int) : MState × TickResult :=
  if s.monitoring_active = false then (s, .notActive)
  else
    match List.lookup s.active_profile profiles with
    | none => (s, .errLookup)
    | some prof =>
        match tickLoop prof reg source now s prof.parameters with
        | (s1, true) => (s1, .ok)
        | (s1, false) => (s1, .errLookup)

/-- Iterated scheduler: runTicks k is the state after ticks at times
t0, t0 + 1, ..., t0 + (k - 1), the one-second tick cadence of the
testable scheduling property. -/
def runTicks (profiles : Profiles) (reg : Registry) (source : ValueSource)
    (s0 : MState) (t0 : Int) : Nat → MState
  | 0 => s0
  | k + 1 => (update_parameters profiles reg source (runTicks profiles reg source s0 t0 k) (t0 + k)).1

/-- DTC record of dtc_parser.py, the per-code dict stored in the source
databases and the merged database. -/
structure Dtc where
  code : String
  title : String
  description : String
  possible_causes : List String
  diagnostic_aids : String
  source : String
deriving DecidableEq, Repr

/-- DtcMap: a Python dict keyed by code string, as an insertion-ordered
association list, which is what dict iteration and assignment preserve. -/
abbrev DtcMap := List (String × Dtc)

/-- Keyed access to a DtcMap, the Python membership test and dict
indexing used by merge_dtc_databases. -/
def dictGet (k : String) : DtcMap → Option Dtc
  | [] => none
  | (a, b) :: t => if k = a then some b else dictGet k t

/-- In-place value update of an existing key, the merged_dtcs[code]
mutation of merge_dtc_databases; entries with other keys and the entry
order are untouched. -/
def setKey (m : DtcMap) (k : String) (v : Dtc) : DtcMap :=
  match m with
  | [] => []
  | (a, b) :: t => if a = k then (a, v) :: setKey t k v else (a, b) :: setKey t k v

/-- One step of a merge loop of merge_dtc_databases: a code already
present is combined into the existing record in place, a new code is
appended at the end, as Python dict assignment does. -/
def mergeStep (combine : Dtc → Dtc → Dtc) (m : DtcMap) (kv : String × Dtc) : DtcMap :=
  match dictGet kv.1 m with
  | some r => setKey m kv.1 (combine r kv.2)
  | none => m ++ [kv]

/-- Fold of one source database into the accumulated merged database. -/
def absorb (combine : Dtc → Dtc → Dtc) (m : DtcMap) (l : DtcMap) : DtcMap :=
  l.foldl (mergeStep combine) m

/-- Combination applied by the new_2007 loop of merge_dtc_databases: an
empty description in the accumulated record is filled from the new
record when that one is non-empty, and the source string gets the
new_2007 tag appended unconditionally. -/
def fillFrom2007 (r i : Dtc) : Dtc :=
  { r with
    description :=
      if r.description = "" ∧ i.description ≠ "" then i.description else r.description,
    source := r.source ++ ",new_2007" }

/-- Combination applied by the rac loop of merge_dtc_databases: only
the source string gets the rac tag appended; no field is filled. -/
def tagRac (r : Dtc) (_ : Dtc) : Dtc :=
  { r with source := r.source ++ ",rac" }

/-- Function merge_dtc_databases: the accumulator starts as the primary
database (dict update of an empty dict), then the new_2007 entries and
the rac entries are folded in. -/
def merge_dtc_databases (primary new_2007 rac : DtcMap) : DtcMap :=
  absorb tagRac (absorb fillFrom2007 primary new_2007) rac

/-- Predicate that the keys of a database are distinct, which holds for
every map that came from a Python dict. -/
abbrev nodupKeys (m : DtcMap) : Prop :=
  (m.map Prod.fst).Nodup

/-- Closed form of the record the merge produces for one code, as a
function of the three per-source lookups of that code; the
characterization theorem below proves the merge equal to it. -/
def mergedRecord (dp? dn? dr? : Option Dtc) : Option Dtc :=
  let afterN : Option Dtc :=
    match dp?, dn? with
    | some dp, some dn => some (fillFrom2007 dp dn)
    | some dp, none => some dp
    | none, some dn => some dn
    | none, none => none
  match afterN, dr? with
  | some r, some i => some (tagRac r i)
  | some r, none => some r
  | none, some i => some i
  | none, none => none

/-- RPM definition used by the example in the spec. -/
def rpmDef : ParamDef :=
  { pid := "010C", name := "Engine RPM", unit := "rpm",
    min_normal := some 600, max_normal := some 6500,
    warning_threshold := some 6000, critical_threshold := some 6500,
    priority := "high", polling_rate := 1,
    description := "Engine revolutions per minute" }

example : lookupParam MONITORING_PARAMETERS "ENGINE_PARAMETERS.RPM" = some rpmDef := by decide
example : determine_parameter_status rpmDef (some 6200) = .warning := by decide
example : determine_parameter_status rpmDef (some 6500) = .critical := by decide
example : determine_parameter_status rpmDef (some 300) = .warning := by decide
example : determine_parameter_status rpmDef none = .unknown := by decide

/-- Lookup of the updated key after an in-place value update. -/
theorem dictGet_setKey_self (m : DtcMap) (k : String) (v : Dtc) :
    dictGet k (setKey m k v) = (dictGet k m).map fun _ => v := by
  induction m with
  | nil => rfl
  | cons p t ih =>
      obtain ⟨pk, pv⟩ := p
      by_cases h : pk = k
      · simp [setKey, dictGet, h, ih]
      · have h2 : k ≠ pk := fun hk => h hk.symm
        simp [setKey, dictGet, h, h2, ih]

/-- Lookup of a different key after an in-place value update. -/
theorem dictGet_setKey_ne (m : DtcMap) (k c : String) (v : Dtc) (h : c ≠ k) :
    dictGet c (setKey m k v) = dictGet c m := by
  induction m with
  | nil => rfl
  | cons p t ih =>
      obtain ⟨pk, pv⟩ := p
      by_cases hp : pk = k
      · have hc : c ≠ pk := fun hcp => h (hcp ▸ hp)
        simp [setKey, dictGet, hp, hc, h, ih]
      · by_cases hc : c = pk
        · simp [setKey, dictGet, hp, hc]
        · simp [setKey, dictGet, hp, hc, ih]

/-- Lookup after appending one pair at the end. -/
theorem dictGet_append_pair (m : DtcMap) (k c : String) (v : Dtc) :
    dictGet c (m ++ [(k, v)]) =
      match dictGet c m with
      | some r => some r
      | none => if c = k then some v else none := by
  induction m with
  | nil => simp [dictGet]
  | cons p t ih =>
      obtain ⟨pk, pv⟩ := p
      by_cases hc : c = pk
      · simp [dictGet, hc]
      · simp [dictGet, hc, ih]

/-- One merge step leaves every other key untouched. -/
theorem dictGet_mergeStep_ne (combine : Dtc → Dtc → Dtc) (m : DtcMap)
    (kv : String × Dtc) (c : String) (h : c ≠ kv.1) :
    dictGet c (mergeStep combine m kv) = dictGet c m := by
  unfold mergeStep
  cases hm : dictGet kv.1 m with
  | some r => exact dictGet_setKey_ne m kv.1 c _ h
  | none =>
      rw [dictGet_append_pair]
      cases hc : dictGet c m with
      | some r => rfl
      | none => simp [h]

/-- Folding a source none of whose keys is the queried one leaves the
lookup of that key unchanged. -/
theorem dictGet_absorb_notMem (combine : Dtc → Dtc → Dtc) (m l : DtcMap) (c : String)
    (h : ∀ kv ∈ l, c ≠ kv.1) :
    dictGet c (absorb combine m l) = dictGet c m := by
  induction l generalizing m with
  | nil => rfl
  | cons kv t ih =>
      have step : absorb combine m (kv :: t) = absorb combine (mergeStep combine m kv) t := rfl
      rw [step, ih _ fun q hq => h q (List.mem_cons_of_mem _ hq),
        dictGet_mergeStep_ne _ _ _ _ (h kv (List.mem_cons_self _ _))]

/-- Characterization of one fold of a source database into the merged
accumulator: an existing record is combined with the source record of
the same code, a missing code is inserted as is, all other codes are
untouched. -/
theorem dictGet_absorb (combine : Dtc → Dtc → Dtc) (m l : DtcMap) (c : String)
    (hl : nodupKeys l) :
    dictGet c (absorb combine m l) =
      match dictGet c m, dictGet c l with
      | some r, some i => some (combine r i)
      | some r, none => some r
      | none, some i => some i
      | none, none => none := by
  induction l generalizing m with
  | nil =>
      cases hm : dictGet c m <;> simp [absorb, dictGet, hm]
  | cons kv t ih =>
      have hl2 : kv.1 ∉ t.map Prod.fst ∧ (t.map Prod.fst).Nodup := by
        have hl3 : (kv.1 :: t.map Prod.fst).Nodup := by
          have hl4 : ((kv :: t).map Prod.fst).Nodup := hl
          rwa [List.map_cons] at hl4
        rw [List.nodup_cons] at hl3
        exact hl3
      have step : absorb combine m (kv :: t) = absorb combine (mergeStep combine m kv) t := rfl
      by_cases hc : c = kv.1
      · have hnotin : ∀ q ∈ t, c ≠ q.1 := by
          intro q hq hcq
          exact hl2.1 ((hc ▸ hcq) ▸ List.mem_map_of_mem Prod.fst hq)
        have hlk : dictGet c (kv :: t) = some kv.2 := by
          obtain ⟨pk, pv⟩ := kv
          simp only at hc
          simp [dictGet, hc]
        rw [step, dictGet_absorb_notMem _ _ _ _ hnotin, hlk]
        unfold mergeStep
        cases hm : dictGet kv.1 m with
        | some r =>
            rw [hc, hm, dictGet_setKey_self, hm]
            rfl
        | none =>
            rw [hc, hm, dictGet_append_pair, hm]
            simp
      · have hlk : dictGet c (kv :: t) = dictGet c t := by
          obtain ⟨pk, pv⟩ := kv
          simp only at hc
          simp [dictGet, hc]
        rw [step, ih _ hl2.2, dictGet_mergeStep_ne _ _ _ _ hc, hlk]

/-- C9 (corrected). Closed-form of the merged database: for every code,
the merge of the three source databases produces exactly the record
mergedRecord computes from the three per-source lookups — the primary
fields are kept, an empty primary description is filled only by the
new_2007 source, the rac source fills no field, codes absent from
earlier sources are inserted as is, and the provenance is the ordered
comma-joined string of the sources containing the code, regardless of
whether they contributed a field. -/
theorem merge_dtc_databases_characterization (p n r : DtcMap)
    (hn : nodupKeys n) (hr : nodupKeys r) (c : String) :
    dictGet c (merge_dtc_databases p n r) =
      mergedRecord (dictGet c p) (dictGet c n) (dictGet c r) := by
  unfold merge_dtc_databases mergedRecord
  rw [dictGet_absorb _ _ _ _ hr, dictGet_absorb _ _ _ _ hn]

/-- C9 witness: the characterization applied to concrete one-code
databases. -/
theorem merge_dtc_databases_characterization_witness :
    dictGet "P0100"
        (merge_dtc_databases
          [("P0100", { code := "P0100", title := "Mass or Volume Air Flow Circuit Malfunction",
                       description := "", possible_causes := ["Wiring"], diagnostic_aids := "",
                       source := "primary" })]
          [("P0100", { code := "P0100", title := "MAF Circuit", description := "MAF circuit fault",
                       possible_causes := [], diagnostic_aids := "", source := "new_2007" })]
          []) =
      mergedRecord
        (some { code := "P0100", title := "Mass or Volume Air Flow Circuit Malfunction",
                description := "", possible_causes := ["Wiring"], diagnostic_aids := "",
                source := "primary" })
        (some { code := "P0100", title := "MAF Circuit", description := "MAF circuit fault",
                possible_causes := [], diagnostic_aids := "", source := "new_2007" })
        none :=
  merge_dtc_databases_characterization _ _ _ (by decide) (by decide) _

/-- C9 counterexample: with a code whose primary record has an empty
description and whose rac record has a non-empty one, the merged record
keeps the empty description — the rac source does not fill the gap as
the claim states a later source would — while the provenance string
still gains the rac tag although rac contributed nothing. -/
theorem merge_rac_gap_not_filled :
    dictGet "P0001"
        (merge_dtc_databases
          [("P0001", { code := "P0001", title := "Fuel Volume Regulator Control Circuit",
                       description := "", possible_causes := [], diagnostic_aids := "",
                       source := "primary" })]
          []
          [("P0001", { code := "P0001", title := "Fuel Volume Regulator Control Circuit",
                       description := "Fuel volume regulator control circuit open",
                       possible_causes := [], diagnostic_aids := "", source := "rac" })]) =
      some { code := "P0001", title := "Fuel Volume Regulator Control Circuit",
             description := "", possible_causes := [], diagnostic_aids := "",
             source := "primary,rac" } := by decide

/-- Fields of the monitor state the parameter initialization loop never
touches: the flag, the active profile, the document metadata, every
session field except the parameter map, the history and the persisted
copy. -/
theorem initParams_preserves (reg : Registry) (s : MState) (l : List String) :
    (initParams reg s l).1.monitoring_active = s.monitoring_active ∧
    (initParams reg s l).1.active_profile = s.active_profile ∧
    (initParams reg s l).1.doc.metadata = s.doc.metadata ∧
    (initParams reg s l).1.doc.current_session.start_time = s.doc.current_session.start_time ∧
    (initParams reg s l).1.doc.current_session.duration = s.doc.current_session.duration ∧
    (initParams reg s l).1.doc.current_session.alerts = s.doc.current_session.alerts ∧
    (initParams reg s l).1.doc.current_session.dtcs = s.doc.current_session.dtcs ∧
    (initParams reg s l).1.doc.historical_sessions = s.doc.historical_sessions ∧
    (initParams reg s l).1.saved = s.saved ∧
    (initParams reg s l).1.alerts = s.alerts := by
  induction l generalizing s with
  | nil => exact ⟨rfl, rfl, rfl, rfl, rfl, rfl, rfl, rfl, rfl, rfl⟩
  | cons path rest ih =>
      cases hq : lookupParam reg path with
      | none => simp [initParams, hq]
      | some info =>
          simp only [initParams, hq]
          exact ih (applyInit s path info)

/-- Last poll times stay zero through the initialization loop when they
start zero, as they do after the startMutated reset. -/
theorem initParams_lp_zero (reg : Registry) (s : MState) (l : List String)
    (h : ∀ q, s.last_poll_time q = 0) :
    ∀ q, (initParams reg s l).1.last_poll_time q = 0 := by
  induction l generalizing s with
  | nil => exact h
  | cons path rest ih =>
      cases hq : lookupParam reg path with
      | none =>
          simp only [initParams, hq]
          exact h
      | some info =>
          simp only [initParams, hq]
          refine ih (applyInit s path info) ?_
          intro q
          by_cases hqp : q = path <;> simp [applyInit, hqp, h]

/-- Success of the initialization loop when every parameter path of the
profile resolves in the registry. -/
theorem initParams_ok (reg : Registry) (s : MState) (l : List String)
    (h : ∀ q ∈ l, (lookupParam reg q).isSome) :
    (initParams reg s l).2 = true := by
  induction l generalizing s with
  | nil => rfl
  | cons path rest ih =>
      cases hq : lookupParam reg path with
      | none =>
          have h2 := h path (List.mem_cons_self _ _)
          rw [hq] at h2
          simp at h2
      | some info =>
          simp only [initParams, hq]
          exact ih (applyInit s path info) fun q hqm => h q (List.mem_cons_of_mem _ hqm)

/-- Conversely, a successful initialization loop means every parameter
path of the profile resolved. -/
theorem initParams_resolves (reg : Registry) (s : MState) (l : List String)
    (h : (initParams reg s l).2 = true) :
    ∀ q ∈ l, (lookupParam reg q).isSome := by
  induction l generalizing s with
  | nil => intro q hq; cases hq
  | cons path rest ih =>
      intro q hq
      cases hq2 : lookupParam reg path with
      | none =>
          rw [show initParams reg s (path :: rest) = (s, false) by simp [initParams, hq2]] at h
          cases h
      | some info =>
          rw [show initParams reg s (path :: rest) =
              initParams reg (applyInit s path info) rest by simp [initParams, hq2]] at h
          cases List.mem_cons.mp hq with
          | inl hqp => rw [hqp, hq2]; rfl
          | inr hqr => exact ih (applyInit s path info) h q hqr

/-- Field characterization of a successful start: ok result, flag set,
requested profile active, session stamped with the start time, history
untouched, document persisted, all last poll times reset to zero and
the total-alert counter untouched. -/
theorem start_monitoring_ok_fields (profiles : Profiles) (reg : Registry) (s : MState)
    (p : String) (prof : Profile) (now : Int)
    (hact : s.monitoring_active = false)
    (hp : List.lookup p profiles = some prof)
    (hres : ∀ q ∈ prof.parameters, (lookupParam reg q).isSome) :
    (start_monitoring profiles reg s p now).2 = .ok ∧
    (start_monitoring profiles reg s p now).1.monitoring_active = true ∧
    (start_monitoring profiles reg s p now).1.active_profile = p ∧
    (start_monitoring profiles reg s p now).1.doc.current_session.start_time = some now ∧
    (start_monitoring profiles reg s p now).1.doc.historical_sessions = s.doc.historical_sessions ∧
    (start_monitoring profiles reg s p now).1.saved = (start_monitoring profiles reg s p now).1.doc ∧
    (∀ q, (start_monitoring profiles reg s p now).1.last_poll_time q = 0) ∧
    (start_monitoring profiles reg s p now).1.doc.metadata.total_alerts = s.doc.metadata.total_alerts := by
  have hpre := initParams_preserves reg (startMutated s p now) prof.parameters
  have hok := initParams_ok reg (startMutated s p now) prof.parameters hres
  have hlp := initParams_lp_zero reg (startMutated s p now) prof.parameters (fun q => rfl)
  cases hini : initParams reg (startMutated s p now) prof.parameters with
  | mk s2 b =>
      rw [hini] at hpre hok hlp
      subst hok
      have hstart : start_monitoring profiles reg s p now = (save_monitoring_data s2, .ok) := by
        simp [start_monitoring, hact, hp, hini]
      rw [hstart]
      refine ⟨rfl, hpre.1, hpre.2.1, hpre.2.2.2.1, hpre.2.2.2.2.2.2.2.1, rfl, hlp, ?_⟩
      rw [show (save_monitoring_data s2, StartResult.ok).1.doc.metadata = s2.doc.metadata from rfl,
        hpre.2.2.1]
      rfl

/-- Equation for a successful stop: duration computed from the stored
start time, closed session appended, session reset, flag cleared,
document saved. -/
theorem stop_monitoring_ok_eq (s : MState) (now st : Int)
    (hact : s.monitoring_active = true)
    (hst : s.doc.current_session.start_time = some st) :
    stop_monitoring s now =
      (save_monitoring_data
        { s with
          monitoring_active := false,
          doc :=
            { s.doc with
              current_session := emptySession,
              historical_sessions :=
                s.doc.historical_sessions ++
                  [{ s.doc.current_session with duration := now - st }] } }, .ok) := by
  simp [stop_monitoring, hact, hst]

/-- C3. Starting while already in the Monitoring state fails with the
AlreadyMonitoring report (the early False return) and returns the state
exactly as it was: session start time, active profile, lastPolled map
and the monitoring flag are all untouched. -/
theorem start_while_monitoring_changes_nothing (profiles : Profiles) (reg : Registry)
    (s : MState) (p : String) (now : Int) (h : s.monitoring_active = true) :
    start_monitoring profiles reg s p now = (s, .alreadyActive) := by
  simp [start_monitoring, h]

/-- C3 witness: a second start on a freshly started engine. -/
theorem start_while_monitoring_changes_nothing_witness :
    start_monitoring MONITORING_PROFILES MONITORING_PARAMETERS
        (startMutated (initialize_monitoring_data "STANDARD") "STANDARD" 3) "STANDARD" 7 =
      (startMutated (initialize_monitoring_data "STANDARD") "STANDARD" 3, .alreadyActive) :=
  start_while_monitoring_changes_nothing _ _ _ _ _ rfl

/-- C4. Stopping while Idle fails with the NotMonitoring report (the
early False return) and returns the state exactly as it was, so nothing
is appended to the historical sessions and the whole monitoring
document is unchanged. -/
theorem stop_while_idle_changes_nothing (s : MState) (now : Int)
    (h : s.monitoring_active = false) :
    stop_monitoring s now = (s, .notActive) := by
  simp [stop_monitoring, h]

/-- C4 witness: stop on the freshly initialized Idle engine. -/
theorem stop_while_idle_changes_nothing_witness :
    stop_monitoring (initialize_monitoring_data "STANDARD") 11 =
      (initialize_monitoring_data "STANDARD", .notActive) :=
  stop_while_idle_changes_nothing _ _ rfl

/-- C10. A start with an unknown profile name on an Idle engine is not
atomic: the lookup error is reported only after the monitoring flag was
set, the active profile was overwritten in state and metadata, and the
current session was replaced with a fresh session stamped at the call
time; the document is not saved on this path. -/
theorem start_unknown_profile_mutates_state (profiles : Profiles) (reg : Registry)
    (s : MState) (p : String) (now : Int)
    (hact : s.monitoring_active = false)
    (hp : List.lookup p profiles = none) :
    (start_monitoring profiles reg s p now).2 = .errUnknownProfile ∧
    (start_monitoring profiles reg s p now).1.monitoring_active = true ∧
    (start_monitoring profiles reg s p now).1.active_profile = p ∧
    (start_monitoring profiles reg s p now).1.doc.metadata.active_profile = p ∧
    (start_monitoring profiles reg s p now).1.doc.current_session =
      { start_time := some now, duration := 0, parameters := [], alerts := [], dtcs := [] } ∧
    (start_monitoring profiles reg s p now).1.saved = s.saved := by
  have hstart : start_monitoring profiles reg s p now =
      (startMutated s p now, .errUnknownProfile) := by
    simp [start_monitoring, hact, hp]
  rw [hstart]
  exact ⟨rfl, rfl, rfl, rfl, rfl, rfl⟩

/-- C10 witness: starting the freshly initialized engine with a profile
name outside the catalog. -/
theorem start_unknown_profile_mutates_state_witness :
    (start_monitoring MONITORING_PROFILES MONITORING_PARAMETERS
        (initialize_monitoring_data "STANDARD") "TRACK" 5).2 = .errUnknownProfile ∧
    (start_monitoring MONITORING_PROFILES MONITORING_PARAMETERS
        (initialize_monitoring_data "STANDARD") "TRACK" 5).1.monitoring_active = true ∧
    (start_monitoring MONITORING_PROFILES MONITORING_PARAMETERS
        (initialize_monitoring_data "STANDARD") "TRACK" 5).1.active_profile = "TRACK" ∧
    (start_monitoring MONITORING_PROFILES MONITORING_PARAMETERS
        (initialize_monitoring_data "STANDARD") "TRACK" 5).1.doc.metadata.active_profile = "TRACK" ∧
    (start_monitoring MONITORING_PROFILES MONITORING_PARAMETERS
        (initialize_monitoring_data "STANDARD") "TRACK" 5).1.doc.current_session =
      { start_time := some 5, duration := 0, parameters := [], alerts := [], dtcs := [] } ∧
    (start_monitoring MONITORING_PROFILES MONITORING_PARAMETERS
        (initialize_monitoring_data "STANDARD") "TRACK" 5).1.saved =
      (initialize_monitoring_data "STANDARD").saved :=
  start_unknown_profile_mutates_state _ _ _ _ _ rfl (by decide)

/-- C5. A successful start followed by a stop at a later time appends
exactly one session to the historical sessions; that session carries
the non-empty start timestamp of the start call and a duration equal to
stop time minus start time, hence non-negative; the active session is
reset to the empty placeholder and the engine returns to Idle. -/
theorem start_then_stop_appends_one_session (profiles : Profiles) (reg : Registry)
    (s : MState) (p : String) (prof : Profile) (t1 t2 : Int)
    (hact : s.monitoring_active = false)
    (hp : List.lookup p profiles = some prof)
    (hres : ∀ q ∈ prof.parameters, (lookupParam reg q).isSome)
    (hmono : t1 ≤ t2) :
    (start_monitoring profiles reg s p t1).2 = .ok ∧
    (stop_monitoring (start_monitoring profiles reg s p t1).1 t2).2 = .ok ∧
    (∃ closed : Session,
      (stop_monitoring (start_monitoring profiles reg s p t1).1 t2).1.doc.historical_sessions =
        s.doc.historical_sessions ++ [closed] ∧
      closed.start_time = some t1 ∧
      closed.duration = t2 - t1 ∧
      0 ≤ closed.duration) ∧
    (stop_monitoring (start_monitoring profiles reg s p t1).1 t2).1.doc.current_session =
      emptySession ∧
    (stop_monitoring (start_monitoring profiles reg s p t1).1 t2).1.monitoring_active = false := by
  obtain ⟨hok, hma, hap, hst, hhist, hsaved, hlp, hta⟩ :=
    start_monitoring_ok_fields profiles reg s p prof t1 hact hp hres
  have hstop := stop_monitoring_ok_eq (start_monitoring profiles reg s p t1).1 t2 t1 hma hst
  rw [hstop]
  refine ⟨hok, rfl, ⟨{ (start_monitoring profiles reg s p t1).1.doc.current_session with
      duration := t2 - t1 }, ?_, ?_, rfl, (by omega : (0:Int) ≤ t2 - t1)⟩, rfl, rfl⟩
  · rw [show (save_monitoring_data
        { (start_monitoring profiles reg s p t1).1 with
          monitoring_active := false,
          doc :=
            { (start_monitoring profiles reg s p t1).1.doc with
              current_session := emptySession,
              historical_sessions :=
                (start_monitoring profiles reg s p t1).1.doc.historical_sessions ++
                  [{ (start_monitoring profiles reg s p t1).1.doc.current_session with
                      duration := t2 - t1 }] } },
        StopResult.ok).1.doc.historical_sessions =
      (start_monitoring profiles reg s p t1).1.doc.historical_sessions ++
        [{ (start_monitoring profiles reg s p t1).1.doc.current_session with
            duration := t2 - t1 }] from rfl, hhist]
  · exact hst

/-- C5 witness: start with the STANDARD profile at time 100 and stop at
time 130 on the freshly initialized engine. -/
theorem start_then_stop_appends_one_session_witness :
    (start_monitoring MONITORING_PROFILES MONITORING_PARAMETERS
        (initialize_monitoring_data "STANDARD") "STANDARD" 100).2 = .ok ∧
    (stop_monitoring (start_monitoring MONITORING_PROFILES MONITORING_PARAMETERS
        (initialize_monitoring_data "STANDARD") "STANDARD" 100).1 130).2 = .ok ∧
    (∃ closed : Session,
      (stop_monitoring (start_monitoring MONITORING_PROFILES MONITORING_PARAMETERS
          (initialize_monitoring_data "STANDARD") "STANDARD" 100).1 130).1.doc.historical_sessions =
        (initialize_monitoring_data "STANDARD").doc.historical_sessions ++ [closed] ∧
      closed.start_time = some 100 ∧
      closed.duration = 130 - 100 ∧
      0 ≤ closed.duration) ∧
    (stop_monitoring (start_monitoring MONITORING_PROFILES MONITORING_PARAMETERS
        (initialize_monitoring_data "STANDARD") "STANDARD" 100).1 130).1.doc.current_session =
      emptySession ∧
    (stop_monitoring (start_monitoring MONITORING_PROFILES MONITORING_PARAMETERS
        (initialize_monitoring_data "STANDARD") "STANDARD" 100).1 130).1.monitoring_active = false :=
  start_then_stop_appends_one_session _ _ _ _
    { name := "Standard Monitoring",
      description := "Basic vehicle monitoring for everyday driving",
      parameters :=
        [ "ENGINE_PARAMETERS.RPM",
          "ENGINE_PARAMETERS.COOLANT_TEMP",
          "VEHICLE_PARAMETERS.SPEED",
          "FUEL_PARAMETERS.FUEL_LEVEL" ],
      polling_interval := 5, alert_threshold := "warning" }
    100 130 rfl (by decide) (by decide) (by omega)

/-- Last poll map after sampling one parameter: the sampled path is
stamped with now, every other path is untouched. -/
theorem sampleParam_lp (prof : Profile) (source : ValueSource) (s : MState)
    (path : String) (info : ParamDef) (now : Int) (q : String) :
    (sampleParam prof source s path info now).last_poll_time q =
      if q = path then now else s.last_poll_time q := by
  unfold sampleParam
  dsimp only
  split <;> split <;> rfl

/-- Current values after sampling one parameter: the sampled path is
overwritten with the acquired value, its timestamp and its evaluated
status, every other path is untouched. -/
theorem sampleParam_cv (prof : Profile) (source : ValueSource) (s : MState)
    (path : String) (info : ParamDef) (now : Int) (q : String) :
    (sampleParam prof source s path info now).current_values q =
      if q = path then
        some { value := source path now, unit := info.unit, timestamp := some now,
               status := determine_parameter_status info (source path now) }
      else s.current_values q := by
  unfold sampleParam
  dsimp only
  split <;> split <;> rfl

/-- Sampling touches neither the monitoring flag nor the active
profile, and moves the total-alert counter by exactly one when the
sample raises an alert and by nothing otherwise. -/
theorem sampleParam_misc (prof : Profile) (source : ValueSource) (s : MState)
    (path : String) (info : ParamDef) (now : Int) :
    (sampleParam prof source s path info now).monitoring_active = s.monitoring_active ∧
    (sampleParam prof source s path info now).active_profile = s.active_profile ∧
    (sampleParam prof source s path info now).doc.metadata.total_alerts =
      s.doc.metadata.total_alerts +
        (if raisesAlert prof (determine_parameter_status info (source path now)) then 1 else 0) := by
  unfold sampleParam
  dsimp only
  split
  · split <;> exact ⟨rfl, rfl, rfl⟩
  · split <;> exact ⟨rfl, rfl, rfl⟩

/-- Tick loop fields that no step changes: flag and active profile; the
total-alert counter never decreases. -/
theorem tickLoop_misc (prof : Profile) (reg : Registry) (source : ValueSource) (now : Int) :
    ∀ (l : List String) (s : MState),
      (tickLoop prof reg source now s l).1.monitoring_active = s.monitoring_active ∧
      (tickLoop prof reg source now s l).1.active_profile = s.active_profile ∧
      s.doc.metadata.total_alerts ≤ (tickLoop prof reg source now s l).1.doc.metadata.total_alerts := by
  intro l
  induction l with
  | nil => exact fun s => ⟨rfl, rfl, le_refl _⟩
  | cons path rest ih =>
      intro s
      cases hq : lookupParam reg path with
      | none => simp [tickLoop, hq]
      | some info =>
          by_cases hdue : now - s.last_poll_time path ≥ info.polling_rate
          · have hstep : tickLoop prof reg source now s (path :: rest) =
                tickLoop prof reg source now (sampleParam prof source s path info now) rest := by
              simp [tickLoop, hq, hdue]
            rw [hstep]
            obtain ⟨h1, h2, h3⟩ := ih (sampleParam prof source s path info now)
            obtain ⟨m1, m2, m3⟩ := sampleParam_misc prof source s path info now
            refine ⟨h1.trans m1, h2.trans m2, le_trans ?_ h3⟩
            rw [m3]
            exact Nat.le_add_right _ _
          · have hstep : tickLoop prof reg source now s (path :: rest) =
                tickLoop prof reg source now s rest := by
              simp [tickLoop, hq, hdue]
            rw [hstep]
            exact ih s

/-- Tick loop success when every parameter path in it resolves. -/
theorem tickLoop_ok (prof : Profile) (reg : Registry) (source : ValueSource) (now : Int) :
    ∀ (l : List String) (s : MState), (∀ q ∈ l, (lookupParam reg q).isSome) →
      (tickLoop prof reg source now s l).2 = true := by
  intro l
  induction l with
  | nil => exact fun s _ => rfl
  | cons path rest ih =>
      intro s h
      cases hq : lookupParam reg path with
      | none =>
          have h2 := h path (List.mem_cons_self _ _)
          rw [hq] at h2
          cases h2
      | some info =>
          have hrest : ∀ q ∈ rest, (lookupParam reg q).isSome :=
            fun q hqm => h q (List.mem_cons_of_mem _ hqm)
          by_cases hdue : now - s.last_poll_time path ≥ info.polling_rate <;>
            simp [tickLoop, hq, hdue, ih _ hrest]

/-- Paths outside the processed list keep their last poll time and
current value through the tick loop. -/
theorem tickLoop_untouched (prof : Profile) (reg : Registry) (source : ValueSource)
    (now : Int) (p : String) :
    ∀ (l : List String) (s : MState), p ∉ l →
      (tickLoop prof reg source now s l).1.last_poll_time p = s.last_poll_time p ∧
      (tickLoop prof reg source now s l).1.current_values p = s.current_values p := by
  intro l
  induction l with
  | nil => exact fun s _ => ⟨rfl, rfl⟩
  | cons path rest ih =>
      intro s hp
      have hpp : p ≠ path := fun h => hp (h ▸ List.mem_cons_self _ _)
      have hpr : p ∉ rest := fun h => hp (List.mem_cons_of_mem _ h)
      cases hq : lookupParam reg path with
      | none => simp [tickLoop, hq]
      | some info =>
          by_cases hdue : now - s.last_poll_time path ≥ info.polling_rate
          · have hstep : tickLoop prof reg source now s (path :: rest) =
                tickLoop prof reg source now (sampleParam prof source s path info now) rest := by
              simp [tickLoop, hq, hdue]
            rw [hstep]
            obtain ⟨h1, h2⟩ := ih (sampleParam prof source s path info now) hpr
            rw [h1, h2, sampleParam_lp, sampleParam_cv, if_neg hpp, if_neg hpp]
            exact ⟨rfl, rfl⟩
          · have hstep : tickLoop prof reg source now s (path :: rest) =
                tickLoop prof reg source now s rest := by
              simp [tickLoop, hq, hdue]
            rw [hstep]
            exact ih s hpr

/-- Behaviour of the tick loop at one chosen path of the profile list:
when due relative to the state entering the loop, its last poll time
becomes now and its current value is overwritten with the sampled
record; when not due, both are untouched. -/
theorem tickLoop_at (prof : Profile) (reg : Registry) (source : ValueSource)
    (now : Int) (p : String) (info : ParamDef) :
    ∀ (l : List String) (s : MState), l.Nodup → p ∈ l →
      (∀ q ∈ l, (lookupParam reg q).isSome) →
      lookupParam reg p = some info →
      ((now - s.last_poll_time p ≥ info.polling_rate →
          (tickLoop prof reg source now s l).1.last_poll_time p = now ∧
          (tickLoop prof reg source now s l).1.current_values p =
            some { value := source p now, unit := info.unit, timestamp := some now,
                   status := determine_parameter_status info (source p now) }) ∧
       (¬ (now - s.last_poll_time p ≥ info.polling_rate) →
          (tickLoop prof reg source now s l).1.last_poll_time p = s.last_poll_time p ∧
          (tickLoop prof reg source now s l).1.current_values p = s.current_values p)) := by
  intro l
  induction l with
  | nil => intro s _ hmem; cases hmem
  | cons path rest ih =>
      intro s hnd hmem hres hp
      have hndr : rest.Nodup := (List.nodup_cons.mp hnd).2
      by_cases hqp : path = p
      · subst hqp
        have hpr : path ∉ rest := (List.nodup_cons.mp hnd).1
        constructor
        · intro hdue
          have hstep : tickLoop prof reg source now s (path :: rest) =
              tickLoop prof reg source now (sampleParam prof source s path info now) rest := by
            simp [tickLoop, hp, hdue]
          rw [hstep]
          obtain ⟨h1, h2⟩ := tickLoop_untouched prof reg source now path rest
            (sampleParam prof source s path info now) hpr
          rw [h1, h2, sampleParam_lp, sampleParam_cv, if_pos rfl, if_pos rfl]
          exact ⟨rfl, rfl⟩
        · intro hdue
          have hstep : tickLoop prof reg source now s (path :: rest) =
              tickLoop prof reg source now s rest := by
            simp [tickLoop, hp, hdue]
          rw [hstep]
          exact tickLoop_untouched prof reg source now path rest s hpr
      · have hmemr : p ∈ rest := by
          cases List.mem_cons.mp hmem with
          | inl h => exact absurd h.symm hqp
          | inr h => exact h
        have hresr : ∀ q ∈ rest, (lookupParam reg q).isSome :=
          fun q hqm => hres q (List.mem_cons_of_mem _ hqm)
        cases hq : lookupParam reg path with
        | none =>
            have h2 := hres path (List.mem_cons_self _ _)
            rw [hq] at h2
            cases h2
        | some infoq =>
            by_cases hdue : now - s.last_poll_time path ≥ infoq.polling_rate
            · have hstep : tickLoop prof reg source now s (path :: rest) =
                  tickLoop prof reg source now (sampleParam prof source s path infoq now) rest := by
                simp [tickLoop, hq, hdue]
              have hlpp : (sampleParam prof source s path infoq now).last_poll_time p =
                  s.last_poll_time p := by
                rw [sampleParam_lp, if_neg (fun h => hqp h.symm)]
              have hcvp : (sampleParam prof source s path infoq now).current_values p =
                  s.current_values p := by
                rw [sampleParam_cv, if_neg (fun h => hqp h.symm)]
              have := ih (sampleParam prof source s path infoq now) hndr hmemr hresr hp
              rw [hstep]
              rw [hlpp] at this
              constructor
              · intro hdue2
                exact this.1 hdue2
              · intro hdue2
                obtain ⟨ha, hb⟩ := this.2 hdue2
                exact ⟨ha.trans hlpp.symm ▸ ha, hb.trans hcvp⟩
            · have hstep : tickLoop prof reg source now s (path :: rest) =
                  tickLoop prof reg source now s rest := by
                simp [tickLoop, hq, hdue]
              rw [hstep]
              exact ih s hndr hmemr hresr hp

/-- State reached by one tick is the tick loop state whenever the
engine is Monitoring and the active profile resolves. -/
theorem update_parameters_state (profiles : Profiles) (reg : Registry) (source : ValueSource)
    (s : MState) (now : Int) (prof : Profile)
    (hma : s.monitoring_active = true)
    (hprof : List.lookup s.active_profile profiles = some prof) :
    (update_parameters profiles reg source s now).1 =
      (tickLoop prof reg source now s prof.parameters).1 := by
  simp only [update_parameters, hma, hprof]
  cases htl : tickLoop prof reg source now s prof.parameters with
  | mk s1 b => cases b <;> rfl

/-- One tick never changes the monitoring flag or the active profile,
and never decreases the total-alert counter. -/
theorem update_parameters_misc (profiles : Profiles) (reg : Registry) (source : ValueSource)
    (s : MState) (now : Int) :
    (update_parameters profiles reg source s now).1.monitoring_active = s.monitoring_active ∧
    (update_parameters profiles reg source s now).1.active_profile = s.active_profile ∧
    s.doc.metadata.total_alerts ≤
      (update_parameters profiles reg source s now).1.doc.metadata.total_alerts := by
  cases hma : s.monitoring_active with
  | false => simp [update_parameters, hma]
  | true =>
      cases hprof : List.lookup s.active_profile profiles with
      | none => simp [update_parameters, hma, hprof]
      | some prof =>
          rw [update_parameters_state profiles reg source s now prof hma hprof]
          obtain ⟨h1, h2, h3⟩ := tickLoop_misc prof reg source now prof.parameters s
          exact ⟨h1.trans hma, h2, h3⟩

/-- One concrete tick step for the coolant parameter of the STANDARD
profile: sampled exactly when five seconds have elapsed since its last
poll. -/
theorem standard_tick_coolant (source : ValueSource) (s : MState) (tm : Int)
    (hma : s.monitoring_active = true)
    (hap : s.active_profile = "STANDARD") :
    (tm - s.last_poll_time "ENGINE_PARAMETERS.COOLANT_TEMP" ≥ 5 →
      (update_parameters MONITORING_PROFILES MONITORING_PARAMETERS source s tm).1.last_poll_time
        "ENGINE_PARAMETERS.COOLANT_TEMP" = tm) ∧
    (¬ (tm - s.last_poll_time "ENGINE_PARAMETERS.COOLANT_TEMP" ≥ 5) →
      (update_parameters MONITORING_PROFILES MONITORING_PARAMETERS source s tm).1.last_poll_time
        "ENGINE_PARAMETERS.COOLANT_TEMP" =
        s.last_poll_time "ENGINE_PARAMETERS.COOLANT_TEMP") ∧
    (update_parameters MONITORING_PROFILES MONITORING_PARAMETERS source s tm).1.monitoring_active
      = true ∧
    (update_parameters MONITORING_PROFILES MONITORING_PARAMETERS source s tm).1.active_profile
      = "STANDARD" := by
  have hprof : List.lookup s.active_profile MONITORING_PROFILES =
      some { name := "Standard Monitoring",
             description := "Basic vehicle monitoring for everyday driving",
             parameters :=
               [ "ENGINE_PARAMETERS.RPM",
                 "ENGINE_PARAMETERS.COOLANT_TEMP",
                 "VEHICLE_PARAMETERS.SPEED",
                 "FUEL_PARAMETERS.FUEL_LEVEL" ],
             polling_interval := 5, alert_threshold := "warning" } := by
    rw [hap]
    decide
  have hcool : lookupParam MONITORING_PARAMETERS "ENGINE_PARAMETERS.COOLANT_TEMP" =
      some { pid := "0105", name := "Coolant Temperature", unit := "°C",
             min_normal := some 75, max_normal := some 105,
             warning_threshold := some 105, critical_threshold := some 115,
             priority := "high", polling_rate := 5,
             description := "Engine coolant temperature" } := by decide
  have hstate := update_parameters_state MONITORING_PROFILES MONITORING_PARAMETERS source s tm _
    hma hprof
  have hat := tickLoop_at
    { name := "Standard Monitoring",
      description := "Basic vehicle monitoring for everyday driving",
      parameters :=
        [ "ENGINE_PARAMETERS.RPM",
          "ENGINE_PARAMETERS.COOLANT_TEMP",
          "VEHICLE_PARAMETERS.SPEED",
          "FUEL_PARAMETERS.FUEL_LEVEL" ],
      polling_interval := 5, alert_threshold := "warning" }
    MONITORING_PARAMETERS source tm "ENGINE_PARAMETERS.COOLANT_TEMP" _
    [ "ENGINE_PARAMETERS.RPM",
      "ENGINE_PARAMETERS.COOLANT_TEMP",
      "VEHICLE_PARAMETERS.SPEED",
      "FUEL_PARAMETERS.FUEL_LEVEL" ] s (by decide) (by decide) (by decide) hcool
  obtain ⟨hmisc1, hmisc2, _⟩ := update_parameters_misc MONITORING_PROFILES MONITORING_PARAMETERS
    source s tm
  refine ⟨?_, ?_, hmisc1.trans hma, hmisc2.trans hap⟩
  · intro hdue
    rw [hstate]
    exact (hat.1 hdue).1
  · intro hdue
    rw [hstate]
    exact (hat.2 hdue).1

/-- Invariant for the coolant parameter under one-second ticks starting
at t0: after the first k + 1 ticks, its last poll time is t0 plus five
times the number of completed five-tick blocks, and the engine stays in
Monitoring with the STANDARD profile. -/
theorem runTicks_coolant_invariant (source : ValueSource) (s0 : MState) (t0 : Int)
    (hma : s0.monitoring_active = true) (hap : s0.active_profile = "STANDARD")
    (hlp : s0.last_poll_time "ENGINE_PARAMETERS.COOLANT_TEMP" = 0)
    (ht0 : 5 ≤ t0) :
    ∀ k : Nat,
      (runTicks MONITORING_PROFILES MONITORING_PARAMETERS source s0 t0 (k+1)).monitoring_active
          = true ∧
      (runTicks MONITORING_PROFILES MONITORING_PARAMETERS source s0 t0 (k+1)).active_profile
          = "STANDARD" ∧
      (runTicks MONITORING_PROFILES MONITORING_PARAMETERS source s0 t0 (k+1)).last_poll_time
          "ENGINE_PARAMETERS.COOLANT_TEMP" = t0 + 5 * ((k / 5 : Nat) : Int) := by
  intro k
  induction k with
  | zero =>
      have hstep := standard_tick_coolant source s0 (t0 + ((0:Nat):Int)) hma hap
      have hdue : (t0 + ((0:Nat):Int)) - s0.last_poll_time "ENGINE_PARAMETERS.COOLANT_TEMP" ≥ 5 := by
        rw [hlp]
        push_cast
        omega
      refine ⟨hstep.2.2.1, hstep.2.2.2, ?_⟩
      rw [show runTicks MONITORING_PROFILES MONITORING_PARAMETERS source s0 t0 1 =
        (update_parameters MONITORING_PROFILES MONITORING_PARAMETERS source s0 (t0 + ((0:Nat):Int))).1
        from rfl]
      rw [hstep.1 hdue]
      push_cast
      omega
  | succ k ih =>
      obtain ⟨ihm, iha, ihlp⟩ := ih
      have hstep := standard_tick_coolant source
        (runTicks MONITORING_PROFILES MONITORING_PARAMETERS source s0 t0 (k+1))
        (t0 + ((k+1:Nat):Int)) ihm iha
      have hrun : runTicks MONITORING_PROFILES MONITORING_PARAMETERS source s0 t0 (k+2) =
          (update_parameters MONITORING_PROFILES MONITORING_PARAMETERS source
            (runTicks MONITORING_PROFILES MONITORING_PARAMETERS source s0 t0 (k+1))
            (t0 + ((k+1:Nat):Int))).1 := rfl
      refine ⟨hrun ▸ hstep.2.2.1, hrun ▸ hstep.2.2.2, ?_⟩
      by_cases hdue : (t0 + ((k+1:Nat):Int)) -
          (runTicks MONITORING_PROFILES MONITORING_PARAMETERS
            source s0 t0 (k+1)).last_poll_time "ENGINE_PARAMETERS.COOLANT_TEMP" ≥ 5
      · rw [hrun, hstep.1 hdue]
        rw [ihlp] at hdue
        have h1 := Nat.div_add_mod k 5
        have h2 := Nat.div_add_mod (k+1) 5
        have h3 : k % 5 < 5 := Nat.mod_lt k (by norm_num)
        have h4 : (k+1) % 5 < 5 := Nat.mod_lt (k+1) (by norm_num)
        push_cast at hdue ⊢
        omega
      · rw [hrun, hstep.2.1 hdue, ihlp]
        rw [ihlp] at hdue
        have h1 := Nat.div_add_mod k 5
        have h2 := Nat.div_add_mod (k+1) 5
        have h3 : k % 5 < 5 := Nat.mod_lt k (by norm_num)
        have h4 : (k+1) % 5 < 5 := Nat.mod_lt (k+1) (by norm_num)
        push_cast at hdue ⊢
        omega

/-- C2. Sampling happens if and only if the engine is Monitoring and
now minus the last poll time of a parameter has reached its own polling
rate: a tick on an Idle engine changes nothing at all; on a Monitoring
engine a due parameter gets its last poll time set to now and its
current value overwritten with the acquired sample while an undue
parameter keeps both; any start from Idle resets every last poll time
to zero; and under one-second ticks from t0 the STANDARD coolant
parameter with polling rate five is sampled at relative ticks 0, 5, 10,
and so on, and at no others. -/
theorem tick_samples_exactly_when_due :
    (∀ (profiles : Profiles) (reg : Registry) (source : ValueSource) (s : MState) (now : Int),
      s.monitoring_active = false →
      update_parameters profiles reg source s now = (s, .notActive)) ∧
    (∀ (profiles : Profiles) (reg : Registry) (source : ValueSource) (s : MState) (now : Int)
        (p : String) (prof : Profile) (info : ParamDef),
      s.monitoring_active = true →
      List.lookup s.active_profile profiles = some prof →
      prof.parameters.Nodup →
      p ∈ prof.parameters →
      (∀ q ∈ prof.parameters, (lookupParam reg q).isSome) →
      lookupParam reg p = some info →
      ((now - s.last_poll_time p ≥ info.polling_rate →
          (update_parameters profiles reg source s now).1.last_poll_time p = now ∧
          (update_parameters profiles reg source s now).1.current_values p =
            some { value := source p now, unit := info.unit, timestamp := some now,
                   status := determine_parameter_status info (source p now) }) ∧
       (now - s.last_poll_time p < info.polling_rate →
          (update_parameters profiles reg source s now).1.last_poll_time p = s.last_poll_time p ∧
          (update_parameters profiles reg source s now).1.current_values p =
            s.current_values p))) ∧
    (∀ (profiles : Profiles) (reg : Registry) (s : MState) (p : String) (now : Int) (q : String),
      s.monitoring_active = false →
      (start_monitoring profiles reg s p now).1.last_poll_time q = 0) ∧
    (∀ (source : ValueSource) (s0 : MState) (t0 : Int) (k : Nat),
      s0.monitoring_active = true →
      s0.active_profile = "STANDARD" →
      s0.last_poll_time "ENGINE_PARAMETERS.COOLANT_TEMP" = 0 →
      5 ≤ t0 →
      ((runTicks MONITORING_PROFILES MONITORING_PARAMETERS source s0 t0 (k+1)).last_poll_time
          "ENGINE_PARAMETERS.COOLANT_TEMP" = t0 + (k : Int) ↔ k % 5 = 0)) := by
  refine ⟨?_, ?_, ?_, ?_⟩
  · intro profiles reg source s now hma
    simp [update_parameters, hma]
  · intro profiles reg source s now p prof info hma hprof hnd hmem hres hp
    have hstate := update_parameters_state profiles reg source s now prof hma hprof
    have hat := tickLoop_at prof reg source now p info prof.parameters s hnd hmem hres hp
    constructor
    · intro hdue
      rw [hstate]
      exact hat.1 hdue
    · intro hdue
      rw [hstate]
      exact hat.2 (by omega)
  · intro profiles reg s p now q hact
    cases hp : List.lookup p profiles with
    | none =>
        rw [show (start_monitoring profiles reg s p now).1 = startMutated s p now by
          simp [start_monitoring, hact, hp]]
        rfl
    | some prof =>
        have hlp := initParams_lp_zero reg (startMutated s p now) prof.parameters (fun _ => rfl)
        cases hini : initParams reg (startMutated s p now) prof.parameters with
        | mk s2 b =>
            rw [hini] at hlp
            cases b with
            | true =>
                rw [show (start_monitoring profiles reg s p now).1 = save_monitoring_data s2 by
                  simp [start_monitoring, hact, hp, hini]]
                exact hlp q
            | false =>
                rw [show (start_monitoring profiles reg s p now).1 = s2 by
                  simp [start_monitoring, hact, hp, hini]]
                exact hlp q
  · intro source s0 t0 k hma hap hlp ht0
    have hinv := (runTicks_coolant_invariant source s0 t0 hma hap hlp ht0 k).2.2
    rw [hinv]
    have h1 := Nat.div_add_mod k 5
    have h3 : k % 5 < 5 := Nat.mod_lt k (by norm_num)
    constructor
    · intro h
      push_cast at h
      omega
    · intro h
      push_cast
      omega

/-- C2 witness: the four parts at concrete inputs — an Idle tick at
time 50, a due RPM sample at time 200 on a just-started STANDARD
engine, the last poll reset of a start from Idle, and the coolant
schedule hitting relative tick 5. -/
theorem tick_samples_exactly_when_due_witness :
    update_parameters MONITORING_PROFILES MONITORING_PARAMETERS (fun _ _ => some 900)
        (initialize_monitoring_data "STANDARD") 50 =
      (initialize_monitoring_data "STANDARD", .notActive) ∧
    ((200 : Int) -
        (startMutated (initialize_monitoring_data "STANDARD") "STANDARD" 100).last_poll_time
          "ENGINE_PARAMETERS.RPM" ≥ 1 →
      (update_parameters MONITORING_PROFILES MONITORING_PARAMETERS (fun _ _ => some 900)
          (startMutated (initialize_monitoring_data "STANDARD") "STANDARD" 100) 200).1.last_poll_time
        "ENGINE_PARAMETERS.RPM" = 200 ∧
      (update_parameters MONITORING_PROFILES MONITORING_PARAMETERS (fun _ _ => some 900)
          (startMutated (initialize_monitoring_data "STANDARD") "STANDARD" 100) 200).1.current_values
        "ENGINE_PARAMETERS.RPM" =
        some { value := some 900, unit := "rpm", timestamp := some 200,
               status := determine_parameter_status
                 { pid := "010C", name := "Engine RPM", unit := "rpm",
                   min_normal := some 600, max_normal := some 6500,
                   warning_threshold := some 6000, critical_threshold := some 6500,
                   priority := "high", polling_rate := 1,
                   description := "Engine revolutions per minute" } (some 900) }) ∧
    (start_monitoring MONITORING_PROFILES MONITORING_PARAMETERS
        (initialize_monitoring_data "STANDARD") "STANDARD" 100).1.last_poll_time
      "ENGINE_PARAMETERS.COOLANT_TEMP" = 0 ∧
    ((runTicks MONITORING_PROFILES MONITORING_PARAMETERS (fun _ _ => some 90)
        (startMutated (initialize_monitoring_data "STANDARD") "STANDARD" 100) 100 6).last_poll_time
      "ENGINE_PARAMETERS.COOLANT_TEMP" = 100 + ((5:Nat) : Int) ↔ (5:Nat) % 5 = 0) :=
  ⟨tick_samples_exactly_when_due.1 _ _ _ _ 50 rfl,
   fun h => ((tick_samples_exactly_when_due.2.1 MONITORING_PROFILES MONITORING_PARAMETERS
      (fun _ _ => some 900) (startMutated (initialize_monitoring_data "STANDARD") "STANDARD" 100)
      200 "ENGINE_PARAMETERS.RPM"
      { name := "Standard Monitoring",
        description := "Basic vehicle monitoring for everyday driving",
        parameters :=
          [ "ENGINE_PARAMETERS.RPM",
            "ENGINE_PARAMETERS.COOLANT_TEMP",
            "VEHICLE_PARAMETERS.SPEED",
            "FUEL_PARAMETERS.FUEL_LEVEL" ],
        polling_interval := 5, alert_threshold := "warning" }
      { pid := "010C", name := "Engine RPM", unit := "rpm",
        min_normal := some 600, max_normal := some 6500,
        warning_threshold := some 6000, critical_threshold := some 6500,
        priority := "high", polling_rate := 1,
        description := "Engine revolutions per minute" }
      rfl (by decide) (by decide) (by decide) (by decide) (by decide)).1 h),
   tick_samples_exactly_when_due.2.2.1 MONITORING_PROFILES MONITORING_PARAMETERS
     (initialize_monitoring_data "STANDARD") "STANDARD" 100 "ENGINE_PARAMETERS.COOLANT_TEMP" rfl,
   tick_samples_exactly_when_due.2.2.2 (fun _ _ => some 90)
     (startMutated (initialize_monitoring_data "STANDARD") "STANDARD" 100) 100 5
     rfl rfl rfl (by omega)⟩

/-- C6. Starting from Idle with a name outside the profile catalog
fails with the unknown-profile error; a profile referencing a parameter
key absent from the registry fails the start with the unknown-parameter
error; the validation is eager: a start that returns ok had every
referenced parameter key resolve, and after such a start a tick at any
time never hits a lookup error. -/
theorem start_validates_profile_eagerly :
    (∀ (profiles : Profiles) (reg : Registry) (s : MState) (p : String) (now : Int),
      s.monitoring_active = false →
      List.lookup p profiles = none →
      (start_monitoring profiles reg s p now).2 = .errUnknownProfile) ∧
    (∀ (profiles : Profiles) (reg : Registry) (s : MState) (p : String) (prof : Profile)
        (now : Int) (q : String),
      s.monitoring_active = false →
      List.lookup p profiles = some prof →
      q ∈ prof.parameters →
      lookupParam reg q = none →
      (start_monitoring profiles reg s p now).2 = .errUnknownParameter) ∧
    (∀ (profiles : Profiles) (reg : Registry) (s : MState) (p : String) (prof : Profile)
        (now : Int),
      s.monitoring_active = false →
      List.lookup p profiles = some prof →
      (start_monitoring profiles reg s p now).2 = .ok →
      ∀ q ∈ prof.parameters, (lookupParam reg q).isSome) ∧
    (∀ (profiles : Profiles) (reg : Registry) (source : ValueSource) (s : MState)
        (p : String) (now now2 : Int),
      s.monitoring_active = false →
      (start_monitoring profiles reg s p now).2 = .ok →
      (update_parameters profiles reg source (start_monitoring profiles reg s p now).1 now2).2 =
        .ok) := by
  refine ⟨?_, ?_, ?_, ?_⟩
  · intro profiles reg s p now hact hp
    simp [start_monitoring, hact, hp]
  · intro profiles reg s p prof now q hact hp hq hqn
    have hfalse : (initParams reg (startMutated s p now) prof.parameters).2 = false := by
      cases h2 : (initParams reg (startMutated s p now) prof.parameters).2 with
      | false => rfl
      | true =>
          have h3 := initParams_resolves reg (startMutated s p now) prof.parameters h2 q hq
          rw [hqn] at h3
          cases h3
    cases hini : initParams reg (startMutated s p now) prof.parameters with
    | mk s2 b =>
        rw [hini] at hfalse
        subst hfalse
        simp [start_monitoring, hact, hp, hini]
  · intro profiles reg s p prof now hact hp hok
    cases hini : initParams reg (startMutated s p now) prof.parameters with
    | mk s2 b =>
        cases b with
        | true =>
            refine initParams_resolves reg (startMutated s p now) prof.parameters ?_
            rw [hini]
        | false =>
            rw [show (start_monitoring profiles reg s p now).2 = .errUnknownParameter by
              simp [start_monitoring, hact, hp, hini]] at hok
            cases hok
  · intro profiles reg source s p now now2 hact hok
    cases hp : List.lookup p profiles with
    | none =>
        rw [show (start_monitoring profiles reg s p now).2 = .errUnknownProfile by
          simp [start_monitoring, hact, hp]] at hok
        cases hok
    | some prof =>
        cases hini : initParams reg (startMutated s p now) prof.parameters with
        | mk s2 b =>
            cases b with
            | false =>
                rw [show (start_monitoring profiles reg s p now).2 = .errUnknownParameter by
                  simp [start_monitoring, hact, hp, hini]] at hok
                cases hok
            | true =>
                have hpre := initParams_preserves reg (startMutated s p now) prof.parameters
                rw [hini] at hpre
                have hres : ∀ q ∈ prof.parameters, (lookupParam reg q).isSome := by
                  refine initParams_resolves reg (startMutated s p now) prof.parameters ?_
                  rw [hini]
                have hs1 : (start_monitoring profiles reg s p now).1 = save_monitoring_data s2 := by
                  simp [start_monitoring, hact, hp, hini]
                have hma1 : (save_monitoring_data s2).monitoring_active = true := hpre.1
                have hap1 : (save_monitoring_data s2).active_profile = p := hpre.2.1
                have hprof1 : List.lookup (save_monitoring_data s2).active_profile profiles =
                    some prof := by
                  rw [hap1, hp]
                have htl := tickLoop_ok prof reg source now2 prof.parameters
                  (save_monitoring_data s2) hres
                rw [hs1]
                cases htl2 : tickLoop prof reg source now2 (save_monitoring_data s2)
                    prof.parameters with
                | mk s3 b2 =>
                    rw [htl2] at htl
                    subst htl
                    simp [update_parameters, hma1, hprof1, htl2]

/-- C6 witness: the unknown-profile error on the real catalog, the
unknown-parameter error on a catalog whose only profile references a
key absent from the registry, and the eager-validation conclusions for
a successful STANDARD start. -/
theorem start_validates_profile_eagerly_witness :
    (start_monitoring MONITORING_PROFILES MONITORING_PARAMETERS
        (initialize_monitoring_data "STANDARD") "TRACK" 9).2 = .errUnknownProfile ∧
    (start_monitoring
        [("X", { name := "X", description := "",
                 parameters := ["ENGINE_PARAMETERS.NOPE"],
                 polling_interval := 1, alert_threshold := "warning" })]
        MONITORING_PARAMETERS (initialize_monitoring_data "STANDARD") "X" 9).2 =
      .errUnknownParameter ∧
    (∀ q ∈ [ "ENGINE_PARAMETERS.RPM",
             "ENGINE_PARAMETERS.COOLANT_TEMP",
             "VEHICLE_PARAMETERS.SPEED",
             "FUEL_PARAMETERS.FUEL_LEVEL" ],
      (lookupParam MONITORING_PARAMETERS q).isSome) ∧
    (update_parameters MONITORING_PROFILES MONITORING_PARAMETERS (fun _ _ => some 90)
        (start_monitoring MONITORING_PROFILES MONITORING_PARAMETERS
          (initialize_monitoring_data "STANDARD") "STANDARD" 9).1 42).2 = .ok :=
  ⟨start_validates_profile_eagerly.1 _ _ _ _ 9 rfl (by decide),
   start_validates_profile_eagerly.2.1
     [("X", { name := "X", description := "",
              parameters := ["ENGINE_PARAMETERS.NOPE"],
              polling_interval := 1, alert_threshold := "warning" })]
     MONITORING_PARAMETERS (initialize_monitoring_data "STANDARD") "X"
     { name := "X", description := "",
       parameters := ["ENGINE_PARAMETERS.NOPE"],
       polling_interval := 1, alert_threshold := "warning" }
     9 "ENGINE_PARAMETERS.NOPE" rfl (by decide) (by decide) (by decide),
   start_validates_profile_eagerly.2.2.1 MONITORING_PROFILES MONITORING_PARAMETERS
     (initialize_monitoring_data "STANDARD") "STANDARD"
     { name := "Standard Monitoring",
       description := "Basic vehicle monitoring for everyday driving",
       parameters :=
         [ "ENGINE_PARAMETERS.RPM",
           "ENGINE_PARAMETERS.COOLANT_TEMP",
           "VEHICLE_PARAMETERS.SPEED",
           "FUEL_PARAMETERS.FUEL_LEVEL" ],
       polling_interval := 5, alert_threshold := "warning" }
     9 rfl (by decide) (by decide),
   start_validates_profile_eagerly.2.2.2 MONITORING_PROFILES MONITORING_PARAMETERS
     (fun _ _ => some 90) (initialize_monitoring_data "STANDARD") "STANDARD" 9 42
     rfl (by decide)⟩

/-- C7 (corrected). Write-through holds for every mutating operation
that completes successfully: set_vehicle_info always saves, a start or
stop that returns ok saves, and the AlreadyMonitoring and NotMonitoring
failures return the state exactly as it was, preserving any existing
agreement between the persisted and in-memory documents. -/
theorem mutating_ops_write_through :
    (∀ (s : MState) (vin make model year engine : String),
      (set_vehicle_info s vin make model year engine).saved =
        (set_vehicle_info s vin make model year engine).doc) ∧
    (∀ (profiles : Profiles) (reg : Registry) (s : MState) (p : String) (now : Int),
      (start_monitoring profiles reg s p now).2 = .ok →
      (start_monitoring profiles reg s p now).1.saved =
        (start_monitoring profiles reg s p now).1.doc) ∧
    (∀ (profiles : Profiles) (reg : Registry) (s : MState) (p : String) (now : Int),
      (start_monitoring profiles reg s p now).2 = .alreadyActive →
      (start_monitoring profiles reg s p now).1 = s) ∧
    (∀ (s : MState) (now : Int),
      (stop_monitoring s now).2 = .ok →
      (stop_monitoring s now).1.saved = (stop_monitoring s now).1.doc) ∧
    (∀ (s : MState) (now : Int),
      (stop_monitoring s now).2 = .notActive →
      (stop_monitoring s now).1 = s) := by
  refine ⟨fun s vin make model year engine => rfl, ?_, ?_, ?_, ?_⟩
  · intro profiles reg s p now hok
    cases hact : s.monitoring_active with
    | true =>
        rw [show (start_monitoring profiles reg s p now).2 = .alreadyActive by
          simp [start_monitoring, hact]] at hok
        cases hok
    | false =>
        cases hp : List.lookup p profiles with
        | none =>
            rw [show (start_monitoring profiles reg s p now).2 = .errUnknownProfile by
              simp [start_monitoring, hact, hp]] at hok
            cases hok
        | some prof =>
            cases hini : initParams reg (startMutated s p now) prof.parameters with
            | mk s2 b =>
                cases b with
                | false =>
                    rw [show (start_monitoring profiles reg s p now).2 = .errUnknownParameter by
                      simp [start_monitoring, hact, hp, hini]] at hok
                    cases hok
                | true =>
                    rw [show (start_monitoring profiles reg s p now).1 =
                      save_monitoring_data s2 by simp [start_monitoring, hact, hp, hini]]
                    rfl
  · intro profiles reg s p now halready
    cases hact : s.monitoring_active with
    | true => simp [start_monitoring, hact]
    | false =>
        cases hp : List.lookup p profiles with
        | none =>
            rw [show (start_monitoring profiles reg s p now).2 = .errUnknownProfile by
              simp [start_monitoring, hact, hp]] at halready
            cases halready
        | some prof =>
            cases hini : initParams reg (startMutated s p now) prof.parameters with
            | mk s2 b =>
                cases b with
                | false =>
                    rw [show (start_monitoring profiles reg s p now).2 = .errUnknownParameter by
                      simp [start_monitoring, hact, hp, hini]] at halready
                    cases halready
                | true =>
                    rw [show (start_monitoring profiles reg s p now).2 = .ok by
                      simp [start_monitoring, hact, hp, hini]] at halready
                    cases halready
  · intro s now hok
    cases hact : s.monitoring_active with
    | false =>
        rw [show (stop_monitoring s now).2 = .notActive by simp [stop_monitoring, hact]] at hok
        cases hok
    | true =>
        cases hst : s.doc.current_session.start_time with
        | none =>
            rw [show (stop_monitoring s now).2 = .badStartTime by
              simp [stop_monitoring, hact, hst]] at hok
            cases hok
        | some st =>
            rw [show (stop_monitoring s now).1 =
              save_monitoring_data
                { s with
                  monitoring_active := false,
                  doc :=
                    { s.doc with
                      current_session := emptySession,
                      historical_sessions :=
                        s.doc.historical_sessions ++
                          [{ s.doc.current_session with duration := now - st }] } } by
              rw [stop_monitoring_ok_eq s now st hact hst]]
            rfl
  · intro s now hnot
    cases hact : s.monitoring_active with
    | false => simp [stop_monitoring, hact]
    | true =>
        cases hst : s.doc.current_session.start_time with
        | none =>
            rw [show (stop_monitoring s now).2 = .badStartTime by
              simp [stop_monitoring, hact, hst]] at hnot
            cases hnot
        | some st =>
            rw [show (stop_monitoring s now).2 = .ok by
              rw [stop_monitoring_ok_eq s now st hact hst]] at hnot
            cases hnot

/-- C7 witness: write-through at concrete calls — a vehicle-info write,
a successful STANDARD start, a rejected second start, a successful stop
and a rejected stop. -/
theorem mutating_ops_write_through_witness :
    (set_vehicle_info (initialize_monitoring_data "STANDARD") "VIN1" "Make" "Model" "2020"
        "V6").saved =
      (set_vehicle_info (initialize_monitoring_data "STANDARD") "VIN1" "Make" "Model" "2020"
        "V6").doc ∧
    (start_monitoring MONITORING_PROFILES MONITORING_PARAMETERS
        (initialize_monitoring_data "STANDARD") "STANDARD" 100).1.saved =
      (start_monitoring MONITORING_PROFILES MONITORING_PARAMETERS
        (initialize_monitoring_data "STANDARD") "STANDARD" 100).1.doc ∧
    (start_monitoring MONITORING_PROFILES MONITORING_PARAMETERS
        (startMutated (initialize_monitoring_data "STANDARD") "STANDARD" 3) "STANDARD" 7).1 =
      startMutated (initialize_monitoring_data "STANDARD") "STANDARD" 3 ∧
    (stop_monitoring (startMutated (initialize_monitoring_data "STANDARD") "STANDARD" 3) 9).1.saved =
      (stop_monitoring (startMutated (initialize_monitoring_data "STANDARD") "STANDARD" 3) 9).1.doc ∧
    (stop_monitoring (initialize_monitoring_data "STANDARD") 9).1 =
      initialize_monitoring_data "STANDARD" :=
  ⟨mutating_ops_write_through.1 _ "VIN1" "Make" "Model" "2020" "V6",
   mutating_ops_write_through.2.1 MONITORING_PROFILES MONITORING_PARAMETERS
     (initialize_monitoring_data "STANDARD") "STANDARD" 100 (by decide),
   mutating_ops_write_through.2.2.1 MONITORING_PROFILES MONITORING_PARAMETERS
     (startMutated (initialize_monitoring_data "STANDARD") "STANDARD" 3) "STANDARD" 7 (by decide),
   mutating_ops_write_through.2.2.2.1
     (startMutated (initialize_monitoring_data "STANDARD") "STANDARD" 3) 9 (by decide),
   mutating_ops_write_through.2.2.2.2 (initialize_monitoring_data "STANDARD") 9 (by decide)⟩

/-- C7 counterexample: a start with an unknown profile name mutates the
in-memory document but raises before the save, so right after this
mutating call the persisted document does not reflect the in-memory
one. -/
theorem start_unknown_profile_skips_save :
    (start_monitoring MONITORING_PROFILES MONITORING_PARAMETERS
        (initialize_monitoring_data "STANDARD") "BOGUS" 5).1.saved ≠
      (start_monitoring MONITORING_PROFILES MONITORING_PARAMETERS
        (initialize_monitoring_data "STANDARD") "BOGUS" 5).1.doc := by decide

/-- C8. The total-alert counter on the monitoring document never
decreases under any engine operation — vehicle-info writes, start and
stop leave it unchanged, a tick can only raise it — and it moves by
exactly one when a sampled parameter raises an alert and by nothing
otherwise. -/
theorem total_alerts_monotone :
    (∀ (s : MState) (vin make model year engine : String),
      (set_vehicle_info s vin make model year engine).doc.metadata.total_alerts =
        s.doc.metadata.total_alerts) ∧
    (∀ (profiles : Profiles) (reg : Registry) (s : MState) (p : String) (now : Int),
      s.doc.metadata.total_alerts ≤
        (start_monitoring profiles reg s p now).1.doc.metadata.total_alerts) ∧
    (∀ (s : MState) (now : Int),
      s.doc.metadata.total_alerts ≤ (stop_monitoring s now).1.doc.metadata.total_alerts) ∧
    (∀ (profiles : Profiles) (reg : Registry) (source : ValueSource) (s : MState) (now : Int),
      s.doc.metadata.total_alerts ≤
        (update_parameters profiles reg source s now).1.doc.metadata.total_alerts) ∧
    (∀ (prof : Profile) (source : ValueSource) (s : MState) (path : String)
        (info : ParamDef) (now : Int),
      (sampleParam prof source s path info now).doc.metadata.total_alerts =
        s.doc.metadata.total_alerts +
          (if raisesAlert prof (determine_parameter_status info (source path now))
           then 1 else 0)) := by
  refine ⟨fun s vin make model year engine => rfl, ?_, ?_, ?_, ?_⟩
  · intro profiles reg s p now
    cases hact : s.monitoring_active with
    | true =>
        rw [show (start_monitoring profiles reg s p now).1 = s by
          simp [start_monitoring, hact]]
    | false =>
        cases hp : List.lookup p profiles with
        | none =>
            rw [show (start_monitoring profiles reg s p now).1 = startMutated s p now by
              simp [start_monitoring, hact, hp]]
            exact le_refl _
        | some prof =>
            cases hini : initParams reg (startMutated s p now) prof.parameters with
            | mk s2 b =>
                have hpre := initParams_preserves reg (startMutated s p now) prof.parameters
                rw [hini] at hpre
                have hmeta : s2.doc.metadata.total_alerts = s.doc.metadata.total_alerts := by
                  rw [show (s2, b).1.doc.metadata = s2.doc.metadata from rfl] at hpre
                  rw [hpre.2.2.1]
                  rfl
                cases b with
                | true =>
                    rw [show (start_monitoring profiles reg s p now).1 =
                      save_monitoring_data s2 by simp [start_monitoring, hact, hp, hini]]
                    exact le_of_eq hmeta.symm
                | false =>
                    rw [show (start_monitoring profiles reg s p now).1 = s2 by
                      simp [start_monitoring, hact, hp, hini]]
                    exact le_of_eq hmeta.symm
  · intro s now
    cases hact : s.monitoring_active with
    | false =>
        rw [show (stop_monitoring s now).1 = s by simp [stop_monitoring, hact]]
    | true =>
        cases hst : s.doc.current_session.start_time with
        | none =>
            rw [show (stop_monitoring s now).1 = s by simp [stop_monitoring, hact, hst]]
        | some st =>
            rw [stop_monitoring_ok_eq s now st hact hst]
            exact le_refl _
  · intro profiles reg source s now
    exact (update_parameters_misc profiles reg source s now).2.2
  · intro prof source s path info now
    exact (sampleParam_misc prof source s path info now).2.2

/-- C1. The status evaluator: an absent value is unknown; a defined and
crossed critical threshold gives critical, and a value exactly at the
critical threshold is critical; otherwise a defined and crossed warning
threshold gives warning; otherwise a value inside the normal range
(absent bounds open-ended) is normal; and a value outside the normal
range is never classified normal — in particular RPM 6200 is warning,
6500 is critical and 300, below minNormal with no low threshold, is
warning. -/
theorem determine_parameter_status_spec :
    (∀ d : ParamDef, determine_parameter_status d none = .unknown) ∧
    (∀ (d : ParamDef) (x : Rat),
      hasCrossed d d.critical_threshold x = true →
      determine_parameter_status d (some x) = .critical) ∧
    (∀ (d : ParamDef) (t : Rat),
      d.critical_threshold = some t →
      determine_parameter_status d (some t) = .critical) ∧
    (∀ (d : ParamDef) (x : Rat),
      hasCrossed d d.critical_threshold x = false →
      hasCrossed d d.warning_threshold x = true →
      determine_parameter_status d (some x) = .warning) ∧
    (∀ (d : ParamDef) (x : Rat),
      hasCrossed d d.critical_threshold x = false →
      hasCrossed d d.warning_threshold x = false →
      inNormalRange d x = true →
      determine_parameter_status d (some x) = .normal) ∧
    (∀ (d : ParamDef) (x : Rat),
      inNormalRange d x = false →
      determine_parameter_status d (some x) ≠ .normal) ∧
    (determine_parameter_status rpmDef (some 6200) = .warning ∧
     determine_parameter_status rpmDef (some 6500) = .critical ∧
     determine_parameter_status rpmDef (some 300) = .warning) := by
  refine ⟨fun d => rfl, ?_, ?_, ?_, ?_, ?_, by decide, by decide, by decide⟩
  · intro d x h
    simp [determine_parameter_status, h]
  · intro d t ht
    have h : hasCrossed d d.critical_threshold t = true := by
      rw [ht]
      unfold hasCrossed
      cases thresholdIsLow d t <;> simp
    simp [determine_parameter_status, h]
  · intro d x hc hw
    simp [determine_parameter_status, hc, hw]
  · intro d x hc hw hn
    simp [determine_parameter_status, hc, hw, hn]
  · intro d x hn
    cases hc : hasCrossed d d.critical_threshold x <;>
      cases hw : hasCrossed d d.warning_threshold x <;>
        simp [determine_parameter_status, hc, hw, hn]

/-- C1 witness: the exactly-at-critical clause applied to the RPM
definition at its critical threshold 6500. -/
theorem determine_parameter_status_spec_witness :
    determine_parameter_status rpmDef (some 6500) = .critical :=
  determine_parameter_status_spec.2.2.1 rpmDef 6500 rfl

end GarageMunky
